import Mathlib

/-!
Shallow embedding of the client-side data-freshness subsystem of the
repository: the `CacheService` (src/services/cache.ts material), the
`cacheWithRevalidation` stale-while-revalidate helper, the `promisePool`
bounded-concurrency scheduler (src/utils/jsUtils.ts), the `usePagination`
hook (src/hooks/index.ts) and the products Redux slice
(sample/src/features/products/productsSlice.ts).

Pure functions are translated into Lean functions; the cooperative
(single-threaded, promise-based) concurrency of the source is translated
into explicit state passing; JavaScript exceptions are translated into
`Except`; wall-clock instants (`Date.now()`) become an explicit `now : Int`
argument threaded through the functions that read the clock.
-/

namespace RNTemplate

/-! ## Data model (src/types/index.ts) -/

/-- `CacheEntry<T> = { data, timestamp, stale }` from src/types/index.ts. -/
structure CacheEntry (α : Type) where
  data : α
  timestamp : Int
  stale : Bool
deriving Repr, DecidableEq

/-- `CacheOptions = { ttl, staleWhileRevalidate }` from src/types/index.ts. -/
structure CacheOptions where
  ttl : Int
  staleWhileRevalidate : Bool
deriving Repr, DecidableEq

/-- `DEFAULT_TTL = 5 * 60 * 1000` from the cache service. -/
def DEFAULT_TTL : Int := 5 * 60 * 1000

namespace CacheService

/-- Body of `CacheService.set<T>(key, data, ttl)`: the entry it writes,
`{ data, timestamp: Date.now(), stale: false }`.  The `ttl` parameter is
received (with default `DEFAULT_TTL`) exactly as in the source; the entry
built by the function does not read it. -/
def setEntry {α : Type} (data : α) (ttl : Int) (now : Int) : CacheEntry α :=
  let _ := ttl
  { data := data, timestamp := now, stale := false }

/-- `CacheService.isStale<T>(entry, ttl)`: `Date.now() - entry.timestamp > ttl`,
with the clock made an explicit argument. -/
def isStale {α : Type} (entry : CacheEntry α) (ttl : Int) (now : Int) : Bool :=
  now - entry.timestamp > ttl

/-- `CacheService.get<T>(key)`.  The interaction with the injected store is
abstracted by its outcome: `storeGet` is what `AsyncStorage.getItem`
produced (`.error` = the operation threw), and `parse` is what `JSON.parse`
does on the retrieved payload (`.error` = the payload was unparseable).
The source wraps the whole body in `try { ... } catch { return null }`,
which the outer `match` on the monadic body reproduces; the result type
`Except String (Option (CacheEntry α))` records whether an exception
escapes to the caller. -/
def get {α : Type} (storeGet : Except String (Option String))
    (parse : String → Except String (CacheEntry α)) :
    Except String (Option (CacheEntry α)) :=
  match (do
    let cachedValue ← storeGet
    match cachedValue with
    | none => pure none
    | some s => do
      let entry ← parse s
      pure (some entry) : Except String (Option (CacheEntry α))) with
  | .error _ => .ok none
  | .ok v => .ok v

/-- `CacheService.set`'s control flow: `try { await AsyncStorage.setItem(...) }
catch (error) { console.error(...) }`.  `storeSet` is the outcome of the
underlying `setItem`; the function never rethrows. -/
def setRun (storeSet : Except String Unit) : Except String Unit :=
  match storeSet with
  | .error _ => .ok ()
  | .ok () => .ok ()

/-- `CacheService.remove`'s control flow: `try { await AsyncStorage.removeItem(...) }
catch (error) { console.error(...) }`. -/
def removeRun (storeRemove : Except String Unit) : Except String Unit :=
  match storeRemove with
  | .error _ => .ok ()
  | .ok () => .ok ()

/-- `CacheService.clear`'s control flow: `try { getAllKeys; filter; multiRemove }
catch (error) { console.error(...) }`; the storage interaction is abstracted
by the combined outcome of the `getAllKeys`/`multiRemove` calls. -/
def clearRun (storeOps : Except String Unit) : Except String Unit :=
  match storeOps with
  | .error _ => .ok ()
  | .ok () => .ok ()

end CacheService

/-! ## Stale-while-revalidate coordinator (`cacheWithRevalidation`) -/

/-- The `{ data, isStale }` record returned by `cacheWithRevalidation`. -/
structure SwrResult (α : Type) where
  data : α
  isStale : Bool
deriving Repr, DecidableEq

/-- Observable cache-side state for `cacheWithRevalidation`: the stored entry
for the key under consideration, the number of background refreshes for that
key that have started but not settled, and how many times the caller-supplied
fetch function has been invoked in total. -/
structure SwrState (α : Type) where
  store : Option (CacheEntry α)
  inFlight : Nat
  fetchCount : Nat
deriving Repr, DecidableEq

/-- One call to `cacheWithRevalidation(key, fetchFn, { ttl, staleWhileRevalidate })`
at clock instant `now`, where `fetched` is the value `fetchFn` resolves with.
Branches mirror the source in order:
 * no cached entry: `fetchFn` is awaited, its result stored, `stale: false`;
 * stale and `staleWhileRevalidate`: the cached data is returned `stale: true`
   and `fetchFn()` is fired without `await` — the fetch is counted and one
   more background refresh is now in flight, but the store is untouched until
   that refresh settles.  The source consults no in-flight registry before
   firing: the branch does not read `inFlight`;
 * not stale: cached data, `stale: false`, no fetch;
 * stale without `staleWhileRevalidate`: `fetchFn` awaited, stored, returned. -/
def cacheWithRevalidation {α : Type} (s : SwrState α) (opts : CacheOptions)
    (now : Int) (fetched : α) : SwrState α × SwrResult α :=
  match s.store with
  | none =>
    ({ store := some (CacheService.setEntry fetched opts.ttl now),
       inFlight := s.inFlight,
       fetchCount := s.fetchCount + 1 },
     { data := fetched, isStale := false })
  | some cached =>
    let stale := CacheService.isStale cached opts.ttl now
    if stale && opts.staleWhileRevalidate then
      ({ s with inFlight := s.inFlight + 1, fetchCount := s.fetchCount + 1 },
       { data := cached.data, isStale := true })
    else if !stale then
      (s, { data := cached.data, isStale := false })
    else
      ({ s with
          store := some (CacheService.setEntry fetched opts.ttl now),
          fetchCount := s.fetchCount + 1 },
       { data := fetched, isStale := false })

/-! ## `promisePool` (src/utils/jsUtils.ts)

The source runs on the single-threaded JS event loop: the only suspension
points are `await Promise.race(executing)` inside the loop and the final
`await Promise.all(executing)`.  We simulate it deterministically: task `i`
is characterised by a duration `durs[i]` in clock ticks, starting at the
simulated instant its factory is invoked and settling `durs[i]` ticks later.
`Promise.race` over a list of promises resolves at the earliest finish time
among them (immediately, i.e. without advancing the clock, if one has
already settled).  The state records the `executing` array as the list of
indices of the promises it currently holds. -/

/-- Minimum of a list of naturals (`0` for the empty list; only applied to
nonempty lists below). -/
def listMin : List Nat → Nat
  | [] => 0
  | x :: xs => xs.foldl Nat.min x

/-- Maximum of a list of naturals (`0` for the empty list). -/
def listMax : List Nat → Nat
  | [] => 0
  | x :: xs => xs.foldl Nat.max x

/-- Simulation state for `promisePool`: the current instant, the contents of
the `executing` array (indices of the promises it holds), and the start and
finish instants of every task started so far (`startT[i]`, `finT[i]`). -/
structure PoolState where
  time : Nat
  exec : List Nat
  startT : List Nat
  finT : List Nat
deriving Repr, DecidableEq

/-- One iteration of the `for (const [index, promiseFn] of promiseFns.entries())`
loop.  The promise for `idx` is created and pushed; if
`executing.length >= concurrency` the loop awaits `Promise.race(executing)`
— the clock advances to the earliest finish time among the promises in
`executing` (not at all if one has already settled) — and then splices out
`executing.findIndex(p => p === promise)`: the promise pushed by THIS
iteration, whether or not it is the one that settled. -/
def promisePoolStep (concurrency : Nat) (s : PoolState) (idx dur : Nat) : PoolState :=
  let startT := s.startT ++ [s.time]
  let finT := s.finT ++ [s.time + dur]
  let exec := s.exec ++ [idx]
  if concurrency ≤ exec.length then
    let raceAt := listMin (exec.map (fun i => finT.getD i 0))
    { time := Nat.max s.time raceAt, exec := exec.erase idx,
      startT := startT, finT := finT }
  else
    { time := s.time, exec := exec, startT := startT, finT := finT }

/-- Full run of `promisePool(promiseFns, concurrency)` over tasks with the
given durations: the loop, then the final `await Promise.all(executing)`.
Returns the final simulation state and the instant at which the call
returns (`Promise.all` resolves once every promise still tracked by
`executing` has settled — promises spliced out earlier are not awaited). -/
def promisePoolRun (durs : List Nat) (concurrency : Nat) : PoolState × Nat :=
  let s := ((List.range durs.length).zip durs).foldl
    (fun s p => promisePoolStep concurrency s p.1 p.2)
    { time := 0, exec := [], startT := [], finT := [] }
  (s, Nat.max s.time (listMax (s.exec.map (fun i => s.finT.getD i 0))))

/-- Number of tasks that are started but not yet settled at instant `t`. -/
def runningAt (s : PoolState) (t : Nat) : Nat :=
  ((List.range s.startT.length).filter
    (fun i => decide (s.startT.getD i 0 ≤ t) && decide (t < s.finT.getD i 0))).length

/-- The `results` array `promisePool` returns, identifying the result of task
`i` with `i`.  `results[index] = result` runs when task `index` settles, so a
slot is filled iff the task's finish instant is no later than the instant the
pool returns; a JS array written by index assignment has length one past the
largest filled index, with holes (`none`) below it. -/
def poolOutput (durs : List Nat) (concurrency : Nat) : List (Option Nat) :=
  let r := promisePoolRun durs concurrency
  let s := r.1
  let tEnd := r.2
  let assigned := (List.range durs.length).filter (fun i => decide (s.finT.getD i 0 ≤ tEnd))
  let len := match assigned with
    | [] => 0
    | _ => listMax assigned + 1
  (List.range len).map (fun i => if s.finT.getD i 0 ≤ tEnd then some i else none)

/-! ## `usePagination` (src/hooks/index.ts)

The hook's mutable pieces (`data`, `page`, `isLoading`, `isRefreshing`,
`hasMore`, `error` React state plus the `isLoadingRef` ref) become one
record.  `loadPage` has exactly one suspension point, `await fetchFn(pageNum)`,
so a call decomposes into a synchronous prefix (`loadPageBegin`, up to and
including starting the fetch) and a continuation applied when the fetch
settles (`loadPageSuccess` / `loadPageFailure`, each ending with the
`finally` block). -/

/-- `PaginatedResponse<T>` from src/types/index.ts. -/
structure PaginatedResponse (α : Type) where
  data : List α
  page : Nat
  pageSize : Nat
  total : Nat
  hasMore : Bool
deriving Repr, DecidableEq

/-- State of one `usePagination` instance. -/
structure PagState (α : Type) where
  data : List α
  page : Nat
  isLoading : Bool
  isRefreshing : Bool
  hasMore : Bool
  error : Option String
  isLoadingRef : Bool
deriving Repr, DecidableEq

/-- Synchronous prefix of `loadPage(pageNum, isRefresh)`: the
`if (isLoadingRef.current) return` guard, then `isLoadingRef.current = true`,
the loading/refreshing flag, and `setError(null)`.  The second component is
`some pageNum` iff `fetchFn(pageNum)` is invoked. -/
def loadPageBegin {α : Type} (s : PagState α) (pageNum : Nat) (isRefresh : Bool) :
    PagState α × Option Nat :=
  if s.isLoadingRef then (s, none)
  else
    ({ s with
        isLoadingRef := true,
        isRefreshing := if isRefresh then true else s.isRefreshing,
        isLoading := if isRefresh then s.isLoading else true,
        error := none }, some pageNum)

/-- Continuation of `loadPage` when `fetchFn(pageNum)` resolves with `resp`:
the `try` body (`setData`, `setHasMore`, `setPage`) followed by the `finally`
block clearing all three loading indicators. -/
def loadPageSuccess {α : Type} (s : PagState α) (resp : PaginatedResponse α)
    (pageNum : Nat) (isRefresh : Bool) : PagState α :=
  { s with
      data := if isRefresh then resp.data else s.data ++ resp.data,
      hasMore := resp.hasMore,
      page := pageNum,
      isLoading := false,
      isRefreshing := false,
      isLoadingRef := false }

/-- Continuation of `loadPage` when `fetchFn(pageNum)` rejects with message
`msg`: the `catch` (`setError`) followed by the `finally` block. -/
def loadPageFailure {α : Type} (s : PagState α) (msg : String) : PagState α :=
  { s with
      error := some msg,
      isLoading := false,
      isRefreshing := false,
      isLoadingRef := false }

/-- The hook's merge of an incoming page into the accumulated list on a
non-refresh load: `setData(prev => [...prev, ...response.data])` — plain
concatenation. -/
def loadPageMerge {α : Type} (prev incoming : List α) : List α :=
  prev ++ incoming

/-- `loadMore()`: `if (!isLoading && hasMore) loadPage(page + 1, false)`.
The closure reads the `isLoading` React state, which between two rapid calls
may not yet reflect a pending `setIsLoading`; `observedIsLoading` is the
value the closure sees. -/
def loadMore {α : Type} (s : PagState α) (observedIsLoading : Bool) :
    PagState α × Option Nat :=
  if !observedIsLoading && s.hasMore then loadPageBegin s (s.page + 1) false
  else (s, none)

/-! ## Products slice (sample/src/features/products/productsSlice.ts) -/

/-- A product as far as the slice's pagination logic is concerned: the `id`
used for deduplication plus a payload field standing for the remaining
attributes. -/
structure Product where
  id : Nat
  name : String
deriving Repr, DecidableEq

/-- `ProductsState` fields touched by the fetch reducers. -/
structure ProductsState where
  items : List Product
  loading : Bool
  isRefreshing : Bool
  isFetchingMore : Bool
  error : Option String
  page : Nat
  limit : Nat
  hasMore : Bool
deriving Repr, DecidableEq

/-- The pagination branch of `fetchProducts.fulfilled`:
`existingIds = new Set(state.items.map(p => p.id))`,
`newItems = action.payload.filter(item => !existingIds.has(item.id))`,
`state.items = [...state.items, ...newItems]`. -/
def dedupMerge (items payload : List Product) : List Product :=
  let existingIds := items.map Product.id
  let newItems := payload.filter (fun item => !existingIds.contains item.id)
  items ++ newItems

/-- `fetchProducts.fulfilled` reducer: clears the loading flags and error,
replaces the list on refresh/initial load (`arg.page === 0`), dedup-merges
and bumps `page` otherwise, and recomputes `hasMore` from the payload
length. -/
def fetchProductsFulfilled (s : ProductsState) (argPage : Nat)
    (payload : List Product) : ProductsState :=
  let isRefresh := argPage == 0 && !s.items.isEmpty
  let isInitialLoad := argPage == 0 && s.items.isEmpty
  let s1 : ProductsState :=
    if isRefresh || isInitialLoad then
      { s with items := payload, page := 1 }
    else
      { s with items := dedupMerge s.items payload, page := argPage + 1 }
  { s1 with
      loading := false,
      isRefreshing := false,
      isFetchingMore := false,
      error := none,
      hasMore := payload.length == s.limit }

/-- `fetchProducts.rejected` reducer: clears the loading flags and records
`action.payload || "Error fetching products"`; `state.items` is not
touched. -/
def fetchProductsRejected (s : ProductsState) (payload : Option String) :
    ProductsState :=
  { s with
      loading := false,
      isRefreshing := false,
      isFetchingMore := false,
      error := some (payload.getD "Error fetching products") }

/-! ## Theorems -/

/-- C5: `isStale(entry, ttl)` is exactly `now - entry.timestamp > ttl`
(strictly greater); an entry written by `set` at clock instant `now0` is not
stale at that same instant for any TTL `ttl ≥ 0` (including `ttl = 0`), and
at a later instant `t` it is stale precisely when the elapsed time
`t - now0` exceeds `ttl`.  Purity and determinism hold by construction: the
embedding of `isStale` is a function of the entry, the TTL and the clock
value alone. -/
theorem isStale_semantics {α : Type} (e : CacheEntry α) (ttl now : Int)
    (d : α) (ttlW now0 : Int) (h : 0 ≤ ttl) :
    (CacheService.isStale e ttl now = true ↔ now - e.timestamp > ttl) ∧
    CacheService.isStale (CacheService.setEntry d ttlW now0) ttl now0 = false ∧
    (∀ t : Int, CacheService.isStale (CacheService.setEntry d ttlW now0) ttl t = true ↔
      t - now0 > ttl) := by
  refine ⟨?_, ?_, ?_⟩
  · simp [CacheService.isStale]
  · simp [CacheService.isStale, CacheService.setEntry]
    omega
  · intro t
    simp [CacheService.isStale, CacheService.setEntry]

/-- Witness for C5 at a concrete input: the entry written at instant 100 is
not stale at instant 100 with `ttl = 10`. -/
theorem isStale_semantics_witness :
    CacheService.isStale (CacheService.setEntry (7 : Nat) 3 100) 10 100 = false :=
  (isStale_semantics (⟨0, 5, false⟩ : CacheEntry Nat) 10 20 7 3 100 (by decide)).2.1

/-- C10: the entry `CacheService.set` writes does not depend on the `ttl`
argument: two `set` calls with the same data at the same instant and any two
TTLs write identical entries, whose `stale` field is the constant `false`
and whose timestamp is the write instant; consequently staleness of the
stored entry is determined solely by the TTL supplied to `isStale` at read
time. -/
theorem set_ignores_ttl {α : Type} (d : α) (t1 t2 now : Int) :
    CacheService.setEntry d t1 now = CacheService.setEntry d t2 now ∧
    (CacheService.setEntry d t1 now).stale = false ∧
    (CacheService.setEntry d t1 now).timestamp = now ∧
    (∀ ttlRead tRead : Int,
      CacheService.isStale (CacheService.setEntry d t1 now) ttlRead tRead =
        CacheService.isStale (CacheService.setEntry d t2 now) ttlRead tRead) := by
  refine ⟨rfl, rfl, rfl, fun ttlRead tRead => rfl⟩

/-- C6: no CacheStore operation propagates a storage or deserialization
failure: `get` returns `.ok` for every behaviour of the underlying store and
parser — in particular `.ok none` ("absent") when the store read throws or
the payload is unparseable — and `set`/`remove`/`clear` return `.ok ()` no
matter how the underlying storage operation fares. -/
theorem cache_ops_never_throw (α : Type) :
    (∀ (storeGet : Except String (Option String))
       (parse : String → Except String (CacheEntry α)),
      ∃ v, CacheService.get storeGet parse = .ok v) ∧
    (∀ (e : String) (parse : String → Except String (CacheEntry α)),
      CacheService.get (.error e) parse = .ok none) ∧
    (∀ payload e : String,
      CacheService.get (α := α) (.ok (some payload)) (fun _ => .error e) = .ok none) ∧
    (∀ r : Except String Unit, CacheService.setRun r = .ok ()) ∧
    (∀ r : Except String Unit, CacheService.removeRun r = .ok ()) ∧
    (∀ r : Except String Unit, CacheService.clearRun r = .ok ()) := by
  refine ⟨?_, ?_, ?_, ?_, ?_, ?_⟩
  · intro storeGet parse
    rcases storeGet with e | ov
    · exact ⟨none, rfl⟩
    · rcases ov with _ | s
      · exact ⟨none, rfl⟩
      · rcases hp : parse s with e | entry
        · exact ⟨none, by simp [CacheService.get, hp, Bind.bind, Except.bind]⟩
        · exact ⟨some entry, by
            simp [CacheService.get, hp, Bind.bind, Except.bind, Pure.pure, Except.pure]⟩
  · intro e parse
    rfl
  · intro payload e
    rfl
  · intro r
    rcases r with e | u
    · rfl
    · rfl
  · intro r
    rcases r with e | u
    · rfl
    · rfl
  · intro r
    rcases r with e | u
    · rfl
    · rfl

/-- C7: when a cached entry is present and not stale, `cacheWithRevalidation`
returns the cached data with `isStale: false` and leaves the state untouched
— no store write, no change to `fetchCount` (the fetch function is not
invoked) — for every value of `staleWhileRevalidate`. -/
theorem revalidation_fresh_hit_no_fetch {α : Type} (s : SwrState α)
    (c : CacheEntry α) (opts : CacheOptions) (now : Int) (fetched : α)
    (hs : s.store = some c)
    (hfresh : CacheService.isStale c opts.ttl now = false) :
    cacheWithRevalidation s opts now fetched = (s, { data := c.data, isStale := false }) := by
  simp [cacheWithRevalidation, hs, hfresh]

/-- Witness for C7 at a concrete input: a fresh entry (written at 0, read at
5, `ttl = 10`) is served from cache with no fetch, with `staleWhileRevalidate`
set. -/
theorem revalidation_fresh_hit_no_fetch_witness :
    cacheWithRevalidation (⟨some ⟨7, 0, false⟩, 0, 0⟩ : SwrState Nat)
      ⟨10, true⟩ 5 9 = (⟨some ⟨7, 0, false⟩, 0, 0⟩, ⟨7, false⟩) :=
  revalidation_fresh_hit_no_fetch _ _ _ _ _ rfl (by decide)

/-- C1 counterexample: with a stale entry stored for the key (written at 0,
read at 100 with `ttl = 10`), one background refresh outstanding
(`inFlight = 1`) and one fetch already performed (`fetchCount = 1`, the
outstanding refresh — the store is still unchanged because it has not
settled), a further `revalidate` call with `staleWhileRevalidate` invokes
the fetch function again: the total rises to 2, refuting "the underlying
fetch function is invoked at most once in total until that refresh
settles". -/
theorem swr_noRegistry_counterexample :
    (cacheWithRevalidation (⟨some ⟨(7 : Nat), 0, false⟩, 1, 1⟩ : SwrState Nat)
      ⟨10, true⟩ 100 9).1.fetchCount = 2 ∧
    ¬ ((cacheWithRevalidation (⟨some ⟨(7 : Nat), 0, false⟩, 1, 1⟩ : SwrState Nat)
      ⟨10, true⟩ 100 9).1.fetchCount ≤ 1) := by
  decide

/-- C1 amended: `cacheWithRevalidation` consults no in-flight registry —
every call that finds a stale entry with `staleWhileRevalidate` true starts
its own background fetch, regardless of how many refreshes for the key are
already outstanding: `fetchCount` and `inFlight` each rise by exactly one,
the store is untouched until the background refresh settles, and the caller
receives the cached value marked stale.  Hence N such calls issued while a
refresh is outstanding produce N further fetch invocations, not at most
one. -/
theorem swr_stale_call_always_starts_fetch {α : Type} (s : SwrState α)
    (c : CacheEntry α) (opts : CacheOptions) (now : Int) (fetched : α)
    (hs : s.store = some c)
    (hstale : CacheService.isStale c opts.ttl now = true)
    (hswr : opts.staleWhileRevalidate = true) :
    (cacheWithRevalidation s opts now fetched).1.fetchCount = s.fetchCount + 1 ∧
    (cacheWithRevalidation s opts now fetched).1.inFlight = s.inFlight + 1 ∧
    (cacheWithRevalidation s opts now fetched).1.store = s.store ∧
    (cacheWithRevalidation s opts now fetched).2 = { data := c.data, isStale := true } := by
  simp [cacheWithRevalidation, hs, hstale, hswr]

/-- Witness for the amended C1 at a concrete input: with two refreshes
already outstanding, a further stale-while-revalidate call still fires a
third fetch. -/
theorem swr_stale_call_always_starts_fetch_witness :
    (cacheWithRevalidation (⟨some ⟨(7 : Nat), 0, false⟩, 2, 2⟩ : SwrState Nat)
      ⟨10, true⟩ 100 9).1.fetchCount = 2 + 1 :=
  (swr_stale_call_always_starts_fetch _ _ _ _ _ rfl (by decide) rfl).1

/-- C2: `promisePool` does not bound concurrency: with four tasks of
durations `[1, 10, 10, 10]` and `concurrency = 2`, the loop splices the
just-pushed promise out of `executing` instead of the settled one, so after
task 0 settles at instant 1 the pool starts tasks 2 and 3 while task 1 is
still running — at instant 1 (and still at instant 2) three tasks are
started-but-unsettled, exceeding the limit 2. -/
theorem promisePool_exceeds_limit :
    runningAt (promisePoolRun [1, 10, 10, 10] 2).1 1 = 3 ∧
    runningAt (promisePoolRun [1, 10, 10, 10] 2).1 2 = 3 ∧
    ¬ (runningAt (promisePoolRun [1, 10, 10, 10] 2).1 2 ≤ 2) := by
  decide

/-- C4: `promisePool` can return before its tasks settle, with missing
results: on the same input (durations `[1, 10, 10, 10]`, `concurrency = 2`,
all tasks succeeding), the final `Promise.all` awaits only the promises
still tracked in `executing` — just task 0, because tasks 1–3 were spliced
out while pending — so the call returns at instant 1 with `results` holding
only slot 0: a list of length 1 instead of the four results in input
order. -/
theorem promisePool_incomplete_output :
    poolOutput [1, 10, 10, 10] 2 = [some 0] ∧
    (promisePoolRun [1, 10, 10, 10] 2).2 = 1 ∧
    (poolOutput [1, 10, 10, 10] 2).length ≠ 4 := by
  decide

/-- C3 counterexample: the merge `usePagination.loadPage` performs on a
non-refresh load is plain concatenation, so merging incoming
`[{id:2},{id:3}]` into existing `[{id:1},{id:2}]` yields
`[{id:1},{id:2},{id:2},{id:3}]` — the duplicate `id:2` is appended — not
`[{id:1},{id:2},{id:3}]` as the claim states. -/
theorem usePagination_merge_duplicates :
    loadPageMerge [(⟨1, "a"⟩ : Product), ⟨2, "b"⟩] [⟨2, "b"⟩, ⟨3, "c"⟩] =
      [⟨1, "a"⟩, ⟨2, "b"⟩, ⟨2, "b"⟩, ⟨3, "c"⟩] ∧
    loadPageMerge [(⟨1, "a"⟩ : Product), ⟨2, "b"⟩] [⟨2, "b"⟩, ⟨3, "c"⟩] ≠
      [⟨1, "a"⟩, ⟨2, "b"⟩, ⟨3, "c"⟩] := by
  decide

/-- C3 amended: the dedup-merge of the products slice
(`fetchProducts.fulfilled`, pagination branch) has the claimed behaviour:
existing items are preserved unchanged as a prefix, the appended suffix is a
subsequence of the incoming batch (incoming relative order kept), every
appended item's id is absent from the existing items, merging a batch whose
ids are all already present is the identity, and on the spec's scenario
`[{id:1},{id:2}]` merged with `[{id:2},{id:3}]` gives
`[{id:1},{id:2},{id:3}]`.  The `usePagination` hook, by contrast,
concatenates without deduplication (see the counterexample). -/
theorem dedupMerge_spec (prev inc : List Product) :
    (dedupMerge prev inc).take prev.length = prev ∧
    ((dedupMerge prev inc).drop prev.length).Sublist inc ∧
    (∀ it ∈ (dedupMerge prev inc).drop prev.length, it.id ∉ prev.map Product.id) ∧
    ((∀ it ∈ inc, it.id ∈ prev.map Product.id) → dedupMerge prev inc = prev) ∧
    dedupMerge [⟨1, "a"⟩, ⟨2, "b"⟩] [⟨2, "b"⟩, ⟨3, "c"⟩] =
      [⟨1, "a"⟩, ⟨2, "b"⟩, ⟨3, "c"⟩] := by
  refine ⟨?_, ?_, ?_, ?_, by decide⟩
  · simp [dedupMerge]
  · simp only [dedupMerge, List.drop_left]
    exact List.filter_sublist inc
  · intro it hit
    simp only [dedupMerge, List.drop_left, List.mem_filter] at hit
    simpa using hit.2
  · intro h
    have hnil : inc.filter (fun item => !(prev.map Product.id).contains item.id) = [] := by
      rw [List.filter_eq_nil_iff]
      intro a ha
      simpa using h a ha
    show prev ++ inc.filter (fun item => !(prev.map Product.id).contains item.id) = prev
    rw [hnil, List.append_nil]

/-- Witness for the amended C3 at a concrete input: merging a batch whose
only id (2) is already present leaves the list unchanged. -/
theorem dedupMerge_spec_witness :
    dedupMerge [⟨1, "a"⟩, ⟨2, "b"⟩] [⟨2, "x"⟩] = [⟨1, "a"⟩, ⟨2, "b"⟩] :=
  (dedupMerge_spec [⟨1, "a"⟩, ⟨2, "b"⟩] [⟨2, "x"⟩]).2.2.2.1 (by decide)

/-- C8: a second `loadMore()` issued while the first has not settled is a
no-op.  From a quiescent state (`isLoadingRef` clear, not loading, more
pages available), the first call starts exactly one fetch (for `page + 1`);
a second call — whichever value of the `isLoading` React state its closure
observes, since the pending `setIsLoading(true)` may not have rendered yet —
performs no state mutation and starts no fetch, stopped by the `isLoading`
guard or, failing that, by the `isLoadingRef.current` guard inside
`loadPage`. -/
theorem loadMore_concurrent_call_noop {α : Type} (s : PagState α)
    (h1 : s.isLoadingRef = false) (h2 : s.isLoading = false)
    (h3 : s.hasMore = true) :
    (loadMore s s.isLoading).2 = some (s.page + 1) ∧
    (∀ obs : Bool, loadMore (loadMore s s.isLoading).1 obs =
      ((loadMore s s.isLoading).1, none)) := by
  constructor
  · simp [loadMore, loadPageBegin, h1, h2, h3]
  · intro obs
    rcases obs with _ | _ <;>
      simp [loadMore, loadPageBegin, h1, h2, h3]

/-- Witness for C8 at a concrete input: from the initial hook state with
`page = 1`, the first `loadMore` fetches page 2 and an immediate second
`loadMore` (observing a stale `isLoading = false`) changes nothing. -/
theorem loadMore_concurrent_call_noop_witness :
    (loadMore (⟨[], 1, false, false, true, none, false⟩ : PagState Nat) false).2 = some 2 ∧
    loadMore (loadMore (⟨[], 1, false, false, true, none, false⟩ : PagState Nat) false).1 false =
      ((loadMore (⟨[], 1, false, false, true, none, false⟩ : PagState Nat) false).1, none) := by
  have h := loadMore_concurrent_call_noop
    (⟨[], 1, false, false, true, none, false⟩ : PagState Nat) rfl rfl rfl
  exact ⟨h.1, h.2 false⟩

/-- C9: a failed fetch never touches the accumulated items and always moves
the engine to the error phase exposing the failure reason.  In the
`usePagination` hook the `catch`/`finally` continuation of `loadPage`
(shared by initial load, refresh and loadMore) preserves `data`, records the
message and clears the loading flags; in the products slice the
`fetchProducts.rejected` reducer preserves `items`, records
`action.payload || "Error fetching products"` and clears the loading
flags. -/
theorem pagination_failure_preserves_items (α : Type) :
    (∀ (s : PagState α) (msg : String),
      (loadPageFailure s msg).data = s.data ∧
      (loadPageFailure s msg).error = some msg ∧
      (loadPageFailure s msg).isLoading = false ∧
      (loadPageFailure s msg).isRefreshing = false ∧
      (loadPageFailure s msg).isLoadingRef = false) ∧
    (∀ (ps : ProductsState) (payload : Option String),
      (fetchProductsRejected ps payload).items = ps.items ∧
      (fetchProductsRejected ps payload).error = some (payload.getD "Error fetching products") ∧
      (fetchProductsRejected ps payload).loading = false ∧
      (fetchProductsRejected ps payload).isRefreshing = false ∧
      (fetchProductsRejected ps payload).isFetchingMore = false) := by
  refine ⟨fun s msg => ⟨rfl, rfl, rfl, rfl, rfl⟩,
    fun ps payload => ⟨rfl, rfl, rfl, rfl, rfl⟩⟩

end RNTemplate
